import Mathlib

/-!
Shallow embedding of the `k8s-pod-detective` repository (Go):

* `pkg/explainer/explainer.go` — the Explanation Renderer: `FailureInfo`,
  `Explain`, the per-reason narrative templates and `explainExitCode`.
* `pkg/detector/detector.go` — the Failure Detector / Dedup Loop:
  `isFailureReason`, dedup-key construction, `gatherFailureInfo`,
  `gatherTerminationInfo`, `getLastLog`, `checkPod` and the `WatchPods`
  polling loop.

Go `string` is modelled as Lean `String`, `int32` exit codes as `Int`
(the only operations performed on them are comparison and decimal
formatting, so no wrap-around arithmetic is involved), the Kubernetes
client (pod listing and log fetching) as an explicit environment, and
the process-wide `seen map[string]bool` as a `List String` of the keys
mapped to `true`.
-/

namespace PodDetective

/-! ### Decimal formatting (Go's `fmt.Sprintf("%d", ·)`)

Go renders integers in decimal with a leading `-` for negatives.  The
formatter is written with explicit fuel so that it is structurally
recursive and evaluates inside the kernel. -/

/-- The decimal digit character for `d < 10` (`'0'` is code point 48). -/
def decDigit (d : Nat) : Char := Char.ofNat (48 + d)

/-- Decimal digits of `n`, most significant first; `fuel` bounds the
recursion depth and any `fuel > n` is enough. -/
def decDigitsGo : Nat → Nat → List Char
  | 0, _ => []
  | fuel + 1, n =>
    if n < 10 then [decDigit n]
    else decDigitsGo fuel (n / 10) ++ [decDigit (n % 10)]

/-- Decimal rendering of a natural number. -/
def natDec (n : Nat) : String := String.mk (decDigitsGo (n + 1) n)

/-- Decimal rendering of an integer, as Go's `%d` verb prints it. -/
def intDec (i : Int) : String :=
  if i < 0 then "-" ++ natDec (-i).toNat else natDec i.toNat

/-! ### Substring containment

`hasSubstr s sub` says the text `sub` occurs contiguously inside `s`;
this is the sense in which a rendered explanation "contains" a log line
or an exit-code annotation. -/

/-- `sub` occurs verbatim (contiguously) inside `s`. -/
def hasSubstr (s sub : String) : Prop := sub.data <:+: s.data

instance (s sub : String) : Decidable (hasSubstr s sub) :=
  inferInstanceAs (Decidable (sub.data <:+: s.data))

/-! ### Data model (`pkg/explainer/explainer.go`, `k8s.io/api/core/v1`)

Only the fields the program reads are modelled, plus
`lastTerminationState`, which the Kubernetes API supplies but the
detector never consults. -/

/-- `explainer.FailureInfo` — details about a pod failure. -/
structure FailureInfo where
  PodName : String
  Namespace : String
  ContainerName : String
  Reason : String
  Message : String
  ExitCode : Int
  LastLog : String
deriving DecidableEq, Repr

/-- `corev1.ContainerStateWaiting` (the fields the program reads). -/
structure ContainerStateWaiting where
  reason : String
  message : String
deriving DecidableEq, Repr

/-- `corev1.ContainerStateTerminated` (the fields the program reads). -/
structure ContainerStateTerminated where
  exitCode : Int
  reason : String
  message : String
deriving DecidableEq, Repr

/-- `corev1.ContainerState`: at most one of `waiting` / `terminated` is
set; `waiting = none ∧ terminated = none` models a running container. -/
structure ContainerState where
  waiting : Option ContainerStateWaiting
  terminated : Option ContainerStateTerminated
deriving DecidableEq, Repr

/-- `corev1.ContainerStatus`: name, current state, and the last
termination state (present in the API object; never read by the code). -/
structure ContainerStatus where
  name : String
  state : ContainerState
  lastState : ContainerState
deriving DecidableEq, Repr

/-- The slice of a `corev1.Pod` that `checkPod` reads. -/
structure Pod where
  Name : String
  Namespace : String
  containerStatuses : List ContainerStatus
deriving DecidableEq, Repr

/-! ### Exit-code annotation (`explainExitCode`)

Go's `switch code` over integer literals is embedded as the equivalent
chain of equality tests. -/

/-- `explainExitCode` — fixed lookup for well-known container exit
codes, generic "check documentation" message otherwise. -/
def explainExitCode (code : Int) : String :=
  if code = 0 then "→ Exit code 0: Success (but should not crash)"
  else if code = 1 then "→ Exit code 1: Application error - check your code for bugs"
  else if code = 2 then "→ Exit code 2: Misuse of shell command"
  else if code = 126 then "→ Exit code 126: Command cannot execute (permission problem?)"
  else if code = 127 then "→ Exit code 127: Command not found (binary doesn\x27t exist?)"
  else if code = 130 then "→ Exit code 130: Terminated by Ctrl+C (SIGINT)"
  else if code = 137 then "→ Exit code 137: Killed by SIGKILL (usually OOM or forced termination)"
  else if code = 139 then "→ Exit code 139: Segmentation fault (memory access violation)"
  else if code = 143 then "→ Exit code 143: Terminated by SIGTERM (graceful shutdown)"
  else if code = 255 then "→ Exit code 255: Exit status out of range"
  else "→ Exit code " ++ intDec code ++ ": Check application documentation"

/-! ### Narrative templates

Each Go `explainX` function appends string fragments to an accumulator;
the embedding concatenates the same fragments in the same order.  The
unconditional runs of fragments of `explainCrashLoopBackOff` are split
into two named chunks so that the conditional exit-code/log sections can
be addressed in proofs; the chunk boundaries follow the `if` statements
of the source. -/

/-- `explainCrashLoopBackOff`, fragments before the conditional parts. -/
def clbIntro : String :=
  "❌ WHAT HAPPENED:\n"
  ++ "Your container keeps crashing and restarting.\n\n"
  ++ "🤔 WHAT THIS MEANS:\n"
  ++ "The application inside the container starts but then immediately fails.\n"
  ++ "Kubernetes tried to restart it multiple times but it keeps crashing.\n\n"

/-- `explainCrashLoopBackOff`, exit-code section (`if info.ExitCode != 0`). -/
def clbExitPart (info : FailureInfo) : String :=
  if info.ExitCode ≠ 0 then
    "Exit Code: " ++ intDec info.ExitCode ++ "\n"
    ++ explainExitCode info.ExitCode ++ "\n\n"
  else ""

/-- `explainCrashLoopBackOff`, last-log section (`if info.LastLog != ""`). -/
def clbLogPart (info : FailureInfo) : String :=
  if info.LastLog ≠ "" then
    "📝 LAST ERROR MESSAGE:\n" ++ info.LastLog ++ "\n\n"
  else ""

/-- `explainCrashLoopBackOff`, fragments after the conditional parts. -/
def clbTail (info : FailureInfo) : String :=
  "🔧 HOW TO FIX:\n"
  ++ "1. Check application logs for startup errors\n"
  ++ "2. Verify environment variables and configuration\n"
  ++ "3. Test the container image locally\n"
  ++ "4. Check dependencies (database, APIs, etc.)\n\n"
  ++ "🐛 DEBUG COMMANDS:\n"
  ++ "-------------------\n\n"
  ++ "# 1. View recent logs (last 50 lines)\n"
  ++ "kubectl logs " ++ info.PodName ++ " -n " ++ info.Namespace ++ " --tail=50\n\n"
  ++ "# 2. View logs from previous crash\n"
  ++ "kubectl logs " ++ info.PodName ++ " -n " ++ info.Namespace ++ " --previous\n\n"
  ++ "# 3. View all logs with timestamps\n"
  ++ "kubectl logs " ++ info.PodName ++ " -n " ++ info.Namespace
  ++ " --timestamps=true --all-containers=true\n\n"
  ++ "# 4. Stream logs in real-time\n"
  ++ "kubectl logs " ++ info.PodName ++ " -n " ++ info.Namespace ++ " -f\n\n"
  ++ "# 5. Get detailed pod information\n"
  ++ "kubectl describe pod " ++ info.PodName ++ " -n " ++ info.Namespace ++ "\n\n"
  ++ "# 6. Check pod events (last activities)\n"
  ++ "kubectl get events -n " ++ info.Namespace
  ++ " --field-selector involvedObject.name=" ++ info.PodName
  ++ " --sort-by=\x27.lastTimestamp\x27\n\n"
  ++ "# 7. Get pod YAML configuration\n"
  ++ "kubectl get pod " ++ info.PodName ++ " -n " ++ info.Namespace ++ " -o yaml\n\n"
  ++ "# 8. Check environment variables\n"
  ++ "kubectl exec " ++ info.PodName ++ " -n " ++ info.Namespace ++ " -- env\n\n"
  ++ "# 9. Try to exec into container (if it stays up long enough)\n"
  ++ "kubectl exec -it " ++ info.PodName ++ " -n " ++ info.Namespace ++ " -- /bin/sh\n\n"
  ++ "# 10. Check resource usage\n"
  ++ "kubectl top pod " ++ info.PodName ++ " -n " ++ info.Namespace ++ "\n\n"
  ++ "📊 COMMON CAUSES:\n"
  ++ "- Missing required environment variables\n"
  ++ "- Database connection failures\n"
  ++ "- External service unavailable\n"
  ++ "- Configuration file errors\n"
  ++ "- Application code bugs\n"
  ++ "- Port already in use\n"
  ++ "- File system permissions\n"

/-- `explainCrashLoopBackOff` — crash-loop narrative template. -/
def explainCrashLoopBackOff (info : FailureInfo) : String :=
  clbIntro ++ clbExitPart info ++ clbLogPart info ++ clbTail info

/-- `explainImagePullError` — shared template for the two image-pull
reason variants. -/
def explainImagePullError (info : FailureInfo) : String :=
  "❌ WHAT HAPPENED:\n"
  ++ "Kubernetes cannot download your container image.\n\n"
  ++ "🤔 WHAT THIS MEANS:\n"
  ++ "The image specified in your deployment doesn\x27t exist, has the wrong name,\n"
  ++ "or Kubernetes doesn\x27t have permission to pull it from the registry.\n\n"
  ++ "🔧 HOW TO FIX:\n"
  ++ "1. Verify the image name and tag are correct\n"
  ++ "2. Check if the image exists in the registry\n"
  ++ "3. Ensure image pull secrets are configured correctly\n"
  ++ "4. Verify registry credentials are valid\n\n"
  ++ "🐛 DEBUG COMMANDS:\n"
  ++ "-------------------\n\n"
  ++ "# 1. Check pod description for image details\n"
  ++ "kubectl describe pod " ++ info.PodName ++ " -n " ++ info.Namespace
  ++ " | grep -A5 \x27Image\x27\n\n"
  ++ "# 2. View detailed error message\n"
  ++ "kubectl describe pod " ++ info.PodName ++ " -n " ++ info.Namespace
  ++ " | grep -A10 \x27Events\x27\n\n"
  ++ "# 3. Get pod events\n"
  ++ "kubectl get events -n " ++ info.Namespace
  ++ " --field-selector involvedObject.name=" ++ info.PodName ++ "\n\n"
  ++ "# 4. Check if image pull secret exists\n"
  ++ "kubectl get secrets -n " ++ info.Namespace ++ "\n\n"
  ++ "# 5. Describe the image pull secret\n"
  ++ "kubectl get secret  -n " ++ info.Namespace ++ " -o yaml\n\n"
  ++ "# 6. Test pulling the image locally (if using Docker)\n"
  ++ "# First, get the image name from pod:\n"
  ++ "kubectl get pod " ++ info.PodName ++ " -n " ++ info.Namespace
  ++ " -o jsonpath=\x27\x7b.spec.containers[*].image\x7d\x27\n"
  ++ "# Then try pulling it:\n"
  ++ "docker pull \n\n"
  ++ "# 7. Check deployment/pod spec\n"
  ++ "kubectl get pod " ++ info.PodName ++ " -n " ++ info.Namespace
  ++ " -o yaml | grep -A5 \x27image:\x27\n\n"
  ++ "# 8. List all image pull secrets in namespace\n"
  ++ "kubectl get serviceaccount default -n " ++ info.Namespace
  ++ " -o yaml | grep -A3 \x27imagePullSecrets\x27\n\n"
  ++ "📊 COMMON CAUSES:\n"
  ++ "- Typo in image name or tag\n"
  ++ "- Image doesn\x27t exist in registry\n"
  ++ "- Private registry without credentials\n"
  ++ "- Expired or invalid image pull secret\n"
  ++ "- Wrong registry URL\n"
  ++ "- Tag \x27latest\x27 doesn\x27t exist\n"
  ++ "- Network issues accessing registry\n\n"
  ++ "💡 CREATE IMAGE PULL SECRET:\n"
  ++ "kubectl create secret docker-registry regcred \\\n"
  ++ "  --docker-server= \\\n"
  ++ "  --docker-username= \\\n"
  ++ "  --docker-password= \\\n"
  ++ "  --docker-email= \\\n"
  ++ "  -n " ++ info.Namespace ++ "\n"

/-- `explainOOMKilled` — out-of-memory narrative template. -/
def explainOOMKilled (info : FailureInfo) : String :=
  "❌ WHAT HAPPENED:\n"
  ++ "Your container ran out of memory (OOM = Out Of Memory).\n\n"
  ++ "🤔 WHAT THIS MEANS:\n"
  ++ "The application used more memory than the limit you set.\n"
  ++ "Kubernetes killed it to prevent affecting other pods on the node.\n\n"
  ++ "🔧 HOW TO FIX:\n"
  ++ "1. Increase memory limits in your deployment\n"
  ++ "2. Fix memory leaks in your application\n"
  ++ "3. Optimize memory usage\n"
  ++ "4. Use memory profiling tools\n\n"
  ++ "🐛 DEBUG COMMANDS:\n"
  ++ "-------------------\n\n"
  ++ "# 1. Check current memory limits\n"
  ++ "kubectl get pod " ++ info.PodName ++ " -n " ++ info.Namespace
  ++ " -o jsonpath=\x27\x7b.spec.containers[*].resources\x7d\x27\n\n"
  ++ "# 2. View actual memory usage (if metrics-server is installed)\n"
  ++ "kubectl top pod " ++ info.PodName ++ " -n " ++ info.Namespace ++ "\n\n"
  ++ "# 3. Check historical resource usage\n"
  ++ "kubectl describe pod " ++ info.PodName ++ " -n " ++ info.Namespace
  ++ " | grep -A5 \x27Limits\\|Requests\x27\n\n"
  ++ "# 4. View OOM events\n"
  ++ "kubectl get events -n " ++ info.Namespace
  ++ " --field-selector reason=OOMKilling\n\n"
  ++ "# 5. Check node memory pressure\n"
  ++ "kubectl describe nodes | grep -A5 \x27Memory\x27\n\n"
  ++ "# 6. Get pod restart count\n"
  ++ "kubectl get pod " ++ info.PodName ++ " -n " ++ info.Namespace
  ++ " -o jsonpath=\x27\x7b.status.containerStatuses[*].restartCount\x7d\x27\n\n"
  ++ "# 7. View logs before OOM kill\n"
  ++ "kubectl logs " ++ info.PodName ++ " -n " ++ info.Namespace
  ++ " --previous --tail=100\n\n"
  ++ "📊 HOW TO INCREASE MEMORY:\n\n"
  ++ "Edit your deployment/pod spec:\n\n"
  ++ "resources:\n"
  ++ "  requests:\n"
  ++ "    memory: \"256Mi\"  # Minimum guaranteed\n"
  ++ "  limits:\n"
  ++ "    memory: \"512Mi\"  # Maximum allowed (INCREASE THIS)\n\n"
  ++ "Then apply changes:\n"
  ++ "kubectl edit deployment  -n " ++ info.Namespace ++ "\n\n"
  ++ "📊 COMMON CAUSES:\n"
  ++ "- Memory limit set too low\n"
  ++ "- Memory leak in application\n"
  ++ "- Loading too much data at once\n"
  ++ "- Inefficient caching\n"
  ++ "- Large file processing\n"

/-- `explainConfigError` — container-config-error narrative template. -/
def explainConfigError (info : FailureInfo) : String :=
  "❌ WHAT HAPPENED:\n"
  ++ "There\x27s a problem with your container configuration.\n\n"
  ++ "🤔 WHAT THIS MEANS:\n"
  ++ "Kubernetes found an error in your pod/container configuration\n"
  ++ "before it could even start the container.\n\n"
  ++ "🔧 HOW TO FIX:\n"
  ++ "1. Verify all ConfigMaps and Secrets exist\n"
  ++ "2. Check volume mount paths are correct\n"
  ++ "3. Ensure environment variables reference valid resources\n"
  ++ "4. Validate YAML syntax\n\n"
  ++ "🐛 DEBUG COMMANDS:\n"
  ++ "-------------------\n\n"
  ++ "# 1. Get detailed error description\n"
  ++ "kubectl describe pod " ++ info.PodName ++ " -n " ++ info.Namespace ++ "\n\n"
  ++ "# 2. Check if referenced ConfigMaps exist\n"
  ++ "kubectl get configmaps -n " ++ info.Namespace ++ "\n\n"
  ++ "# 3. Check if referenced Secrets exist\n"
  ++ "kubectl get secrets -n " ++ info.Namespace ++ "\n\n"
  ++ "# 4. View pod YAML to find configuration issues\n"
  ++ "kubectl get pod " ++ info.PodName ++ " -n " ++ info.Namespace ++ " -o yaml\n\n"
  ++ "# 5. Check volume mounts\n"
  ++ "kubectl get pod " ++ info.PodName ++ " -n " ++ info.Namespace
  ++ " -o jsonpath=\x27\x7b.spec.volumes\x7d\x27\n\n"
  ++ "📊 COMMON CAUSES:\n"
  ++ "- Missing ConfigMap or Secret\n"
  ++ "- Wrong ConfigMap/Secret key name\n"
  ++ "- Invalid volume mount path\n"
  ++ "- Incorrect environment variable reference\n"

/-- `explainRunContainerError` — run-container-error narrative template. -/
def explainRunContainerError (info : FailureInfo) : String :=
  "❌ WHAT HAPPENED:\n"
  ++ "Kubernetes couldn\x27t start your container.\n\n"
  ++ "🐛 DEBUG COMMANDS:\n"
  ++ "-------------------\n\n"
  ++ "kubectl describe pod " ++ info.PodName ++ " -n " ++ info.Namespace ++ "\n\n"
  ++ "kubectl get events -n " ++ info.Namespace
  ++ " --field-selector involvedObject.name=" ++ info.PodName ++ "\n\n"

/-- `explainInvalidImageName` — invalid-image-name narrative template. -/
def explainInvalidImageName (info : FailureInfo) : String :=
  "❌ WHAT HAPPENED:\n"
  ++ "The container image name is invalid or malformed.\n\n"
  ++ "🐛 DEBUG COMMANDS:\n"
  ++ "-------------------\n\n"
  ++ "# Check the image name\n"
  ++ "kubectl get pod " ++ info.PodName ++ " -n " ++ info.Namespace
  ++ " -o jsonpath=\x27\x7b.spec.containers[*].image\x7d\x27\n\n"

/-- `explainGeneric` — fallback template for unrecognized reasons. -/
def explainGeneric (info : FailureInfo) : String :=
  "❌ WHAT HAPPENED:\n" ++ info.Reason ++ "\n\n"
  ++ (if info.Message ≠ "" then "📝 ERROR MESSAGE:\n" ++ info.Message ++ "\n\n" else "")
  ++ "🐛 DEBUG COMMANDS:\n"
  ++ "-------------------\n\n"
  ++ "# 1. Get detailed pod information\n"
  ++ "kubectl describe pod " ++ info.PodName ++ " -n " ++ info.Namespace ++ "\n\n"
  ++ "# 2. View logs\n"
  ++ "kubectl logs " ++ info.PodName ++ " -n " ++ info.Namespace ++ "\n\n"
  ++ "# 3. View previous logs (if restarted)\n"
  ++ "kubectl logs " ++ info.PodName ++ " -n " ++ info.Namespace ++ " --previous\n\n"
  ++ "# 4. Check events\n"
  ++ "kubectl get events -n " ++ info.Namespace
  ++ " --field-selector involvedObject.name=" ++ info.PodName
  ++ " --sort-by=\x27.lastTimestamp\x27\n\n"

/-- The fixed header that `Explain` writes before dispatching. -/
def explainHeader (info : FailureInfo) : String :=
  "🚨 PROBLEM DETECTED\n"
  ++ "=====================================\n"
  ++ "Pod: " ++ info.Namespace ++ "/" ++ info.PodName ++ "\n"
  ++ "Container: " ++ info.ContainerName ++ "\n\n"

/-- The reason dispatch of `Explain` (Go's `switch info.Reason`,
embedded as the equivalent chain of equality tests; the two image-pull
variants share one template). -/
def explainBody (info : FailureInfo) : String :=
  if info.Reason = "CrashLoopBackOff" then explainCrashLoopBackOff info
  else if info.Reason = "ImagePullBackOff" ∨ info.Reason = "ErrImagePull" then
    explainImagePullError info
  else if info.Reason = "OOMKilled" then explainOOMKilled info
  else if info.Reason = "CreateContainerConfigError" then explainConfigError info
  else if info.Reason = "RunContainerError" then explainRunContainerError info
  else if info.Reason = "InvalidImageName" then explainInvalidImageName info
  else explainGeneric info

/-- `explainer.Explain` — generates the human-friendly explanation with
debug commands. -/
def Explain (info : FailureInfo) : String :=
  explainHeader info ++ explainBody info

/-! ### Detector (`pkg/detector/detector.go`)

The Kubernetes client is modelled as a `LogEnv` supplying the result of
each log fetch (`none` = the fetch errored); pod listing is modelled by
handing the polling loop the list of poll results directly. -/

/-- `isFailureReason` — membership in the fixed list of actionable
waiting-state reasons, by the same linear scan with `==` the Go loop
performs. -/
def isFailureReason (reason : String) : Bool :=
  let failureReasons := ["CrashLoopBackOff", "ImagePullBackOff", "ErrImagePull",
    "CreateContainerConfigError", "InvalidImageName", "RunContainerError"]
  failureReasons.any (fun fr => reason == fr)

/-- `fmt.Sprintf("%s/%s", pod.Namespace, pod.Name)` — the pod key. -/
def podKeyRaw (nsp podName : String) : String := nsp ++ "/" ++ podName

/-- `fmt.Sprintf("%s-%s-%s", podKey, containerStatus.Name, waiting.Reason)`
— the dedup key of a waiting-state failure. -/
def waitingKeyRaw (nsp podName containerName reason : String) : String :=
  podKeyRaw nsp podName ++ "-" ++ containerName ++ "-" ++ reason

/-- `fmt.Sprintf("%s-%s-terminated-%d", podKey, containerStatus.Name,
terminated.ExitCode)` — the dedup key of a terminated-state failure. -/
def terminatedKeyRaw (nsp podName containerName : String) (exitCode : Int) : String :=
  podKeyRaw nsp podName ++ "-" ++ containerName ++ "-terminated-" ++ intDec exitCode

/-- The cluster's log interface: given namespace, pod name, container
name and requested tail-line count, either the raw log bytes or `none`
when the fetch errors. -/
structure LogEnv where
  fetch : String → String → String → Nat → Option String

/-- The tail-line count `getLastLog` asks for (`tailLines := int64(10)`). -/
def tailLines : Nat := 10

/-- `getLastLog` — fetch the last `tailLines` log lines; any fetch error
is mapped to the empty string. -/
def getLastLog (env : LogEnv) (nsp podName containerName : String) : String :=
  match env.fetch nsp podName containerName tailLines with
  | some logs => logs
  | none => ""

/-- `gatherFailureInfo` — the `FailureInfo` built for an actionable
waiting state (note `ExitCode: 0`). -/
def gatherFailureInfo (env : LogEnv) (pod : Pod) (status : ContainerStatus)
    (waiting : ContainerStateWaiting) : FailureInfo :=
  { PodName := pod.Name
    Namespace := pod.Namespace
    ContainerName := status.name
    Reason := waiting.reason
    Message := waiting.message
    ExitCode := 0
    LastLog := getLastLog env pod.Namespace pod.Name status.name }

/-- `gatherTerminationInfo` — the `FailureInfo` built for a non-zero
terminated state; an empty orchestrator reason is normalized to
`"CrashLoopBackOff"`. -/
def gatherTerminationInfo (env : LogEnv) (pod : Pod) (status : ContainerStatus)
    (terminated : ContainerStateTerminated) : FailureInfo :=
  let reason := if terminated.reason = "" then "CrashLoopBackOff" else terminated.reason
  { PodName := pod.Name
    Namespace := pod.Namespace
    ContainerName := status.name
    Reason := reason
    Message := terminated.message
    ExitCode := terminated.exitCode
    LastLog := getLastLog env pod.Namespace pod.Name status.name }

/-- An `Emission` records one dispatch to the Renderer: the dedup key
that was marked seen and the `FailureInfo` passed to `explainer.Explain`
(the printed text is `Explain e.info`). -/
abbrev Emission := String × FailureInfo

/-- The waiting-state branch of `checkPod`'s per-container body: returns
the updated seen set and the emissions (`[]` or one). -/
def waitingCheck (env : LogEnv) (pod : Pod) (seen : List String)
    (cs : ContainerStatus) : List String × List Emission :=
  match cs.state.waiting with
  | some waiting =>
    if isFailureReason waiting.reason then
      let statusKey := waitingKeyRaw pod.Namespace pod.Name cs.name waiting.reason
      if seen.contains statusKey then (seen, [])
      else (statusKey :: seen, [(statusKey, gatherFailureInfo env pod cs waiting)])
    else (seen, [])
  | none => (seen, [])

/-- The terminated-state branch of `checkPod`'s per-container body. -/
def terminatedCheck (env : LogEnv) (pod : Pod) (seen : List String)
    (cs : ContainerStatus) : List String × List Emission :=
  match cs.state.terminated with
  | some terminated =>
    if terminated.exitCode ≠ 0 then
      let statusKey := terminatedKeyRaw pod.Namespace pod.Name cs.name terminated.exitCode
      if seen.contains statusKey then (seen, [])
      else (statusKey :: seen, [(statusKey, gatherTerminationInfo env pod cs terminated)])
    else (seen, [])
  | none => (seen, [])

/-- One iteration of `checkPod`'s `for _, containerStatus` loop body:
the waiting branch runs first, then the terminated branch against the
seen set the waiting branch left behind. -/
def checkContainer (env : LogEnv) (pod : Pod) (seen : List String)
    (cs : ContainerStatus) : List String × List Emission :=
  let r1 := waitingCheck env pod seen cs
  let r2 := terminatedCheck env pod r1.1 cs
  (r2.1, r1.2 ++ r2.2)

/-- Threads the seen set through a sequence of detection steps,
concatenating emissions — the shape shared by the container loop of
`checkPod`, the pod loop of `WatchPods`, and the poll loop itself. -/
def foldDetect (step : List String → α → List String × List Emission)
    (seen : List String) : List α → List String × List Emission
  | [] => (seen, [])
  | x :: xs =>
    let r := step seen x
    let r' := foldDetect step r.1 xs
    (r'.1, r.2 ++ r'.2)

/-- `checkPod` — scan every container status of one pod. -/
def checkPod (env : LogEnv) (seen : List String) (pod : Pod) :
    List String × List Emission :=
  foldDetect (fun s cs => checkContainer env pod s cs) seen pod.containerStatuses

/-- One polling cycle: `checkPod` on each listed pod in order. -/
def pollOnce (env : LogEnv) (seen : List String) (pods : List Pod) :
    List String × List Emission :=
  foldDetect (checkPod env) seen pods

/-- `WatchPods`' unbounded loop, run over a given sequence of successful
poll results (the 10-second sleeps and a final fatal listing error do
not affect which explanations are rendered). -/
def watchRun (env : LogEnv) (seen : List String) (polls : List (List Pod)) :
    List String × List Emission :=
  foldDetect (pollOnce env) seen polls

/-- The dedup keys a container observation fires when none of them has
been seen yet: the waiting key if the classifier accepts the waiting
reason, and the terminated key if the exit code is non-zero. -/
def triggerKeysContainer (pod : Pod) (cs : ContainerStatus) : List String :=
  (match cs.state.waiting with
   | some waiting =>
     if isFailureReason waiting.reason then
       [waitingKeyRaw pod.Namespace pod.Name cs.name waiting.reason]
     else []
   | none => [])
  ++ (match cs.state.terminated with
      | some terminated =>
        if terminated.exitCode ≠ 0 then
          [terminatedKeyRaw pod.Namespace pod.Name cs.name terminated.exitCode]
        else []
      | none => [])

/-- All dedup keys fired across one pod. -/
def triggerKeysPod (pod : Pod) : List String :=
  pod.containerStatuses.flatMap (triggerKeysContainer pod)

/-- All dedup keys fired across one poll result. -/
def triggerKeysPoll (pods : List Pod) : List String :=
  pods.flatMap triggerKeysPod

/-- All dedup keys fired across a whole run. -/
def triggerKeysRun (polls : List (List Pod)) : List String :=
  polls.flatMap triggerKeysPoll

/-- How many times the Renderer is invoked for dedup key `k` in a batch
of emissions. -/
def renderCount (k : String) (out : List Emission) : Nat :=
  (out.map Prod.fst).count k

/-! ### Concrete observations used to instantiate the theorems -/

/-- A cluster whose every log fetch errors. -/
def envNone : LogEnv := ⟨fun _ _ _ _ => none⟩

/-- A cluster whose every log fetch returns the tail `"fatal: OOM"`. -/
def envOOM : LogEnv := ⟨fun _ _ _ _ => some "fatal: OOM"⟩

/-- Container `app`: Waiting with reason `CrashLoopBackOff`; its last
termination exited with code 137 (which the detector never reads). -/
def csCLB : ContainerStatus :=
  { name := "app"
    state := { waiting := some { reason := "CrashLoopBackOff", message := "" }
               terminated := none }
    lastState := { waiting := none
                   terminated := some { exitCode := 137, reason := "OOMKilled", message := "" } } }

/-- Pod `app` in namespace `prod` holding `csCLB`. -/
def podCLB : Pod := { Name := "app", Namespace := "prod", containerStatuses := [csCLB] }

/-- The record the detector builds from `csCLB` under `envOOM`. -/
def infoCLB : FailureInfo :=
  { PodName := "app", Namespace := "prod", ContainerName := "app"
    Reason := "CrashLoopBackOff", Message := "", ExitCode := 0, LastLog := "fatal: OOM" }

/-- An image-pull failure record whose log tail is the (non-empty)
control character `"\x01"`, a byte the image-pull template never emits. -/
def infoIPB : FailureInfo :=
  { PodName := "p", Namespace := "n", ContainerName := "c"
    Reason := "ImagePullBackOff", Message := "", ExitCode := 0, LastLog := "\x01" }

/-- A container that terminated successfully (exit code 0). -/
def csTerm0 : ContainerStatus :=
  { name := "c"
    state := { waiting := none
               terminated := some { exitCode := 0, reason := "Completed", message := "" } }
    lastState := { waiting := none, terminated := none } }

/-- A running container (neither waiting nor terminated). -/
def csRunning : ContainerStatus :=
  { name := "c"
    state := { waiting := none, terminated := none }
    lastState := { waiting := none, terminated := none } }

/-- A termination with exit code 1 and an empty orchestrator reason. -/
def termExit1 : ContainerStateTerminated := { exitCode := 1, reason := "", message := "" }

/-- A container holding `termExit1`. -/
def csExit1 : ContainerStatus :=
  { name := "c"
    state := { waiting := none, terminated := some termExit1 }
    lastState := { waiting := none, terminated := none } }

/-- A container Waiting with reason `OOMKilled` (not actionable). -/
def csOOMWait : ContainerStatus :=
  { name := "c"
    state := { waiting := some { reason := "OOMKilled", message := "" }, terminated := none }
    lastState := { waiting := none, terminated := none } }

/-- A container Terminated with reason `OOMKilled` and exit code 137. -/
def csOOMTerm : ContainerStatus :=
  { name := "c"
    state := { waiting := none
               terminated := some { exitCode := 137, reason := "OOMKilled", message := "" } }
    lastState := { waiting := none, terminated := none } }

/-- Decimal valuation, the left inverse of `decDigitsGo` used to prove
the formatter injective. -/
def decVal (l : List Char) : Nat :=
  l.foldl (fun acc c => 10 * acc + (c.toNat - 48)) 0

/-! ## Lemmas -/

/-! ### The decimal formatter -/

theorem decDigit_toNat {d : Nat} (h : d < 10) : (decDigit d).toNat = 48 + d := by
  interval_cases d <;> decide

theorem decVal_decDigitsGo : ∀ fuel n, n < fuel → decVal (decDigitsGo fuel n) = n := by
  intro fuel
  induction fuel with
  | zero => omega
  | succ fuel ih =>
    intro n h
    by_cases h10 : n < 10
    · simp [decDigitsGo, h10, decVal, decDigit_toNat h10]
    · have hdiv : n / 10 < n := Nat.div_lt_self (by omega) (by omega)
      have hmod : n % 10 < 10 := Nat.mod_lt n (by omega)
      have hrec := ih (n / 10) (by omega)
      simp only [decDigitsGo, h10, if_false]
      simp only [decVal, List.foldl_append, List.foldl_cons, List.foldl_nil] at hrec ⊢
      rw [hrec, decDigit_toNat hmod]
      omega

theorem natDec_inj {m n : Nat} (h : natDec m = natDec n) : m = n := by
  have hd : decDigitsGo (m + 1) m = decDigitsGo (n + 1) n := congrArg String.data h
  have hm := decVal_decDigitsGo (m + 1) m (by omega)
  have hn := decVal_decDigitsGo (n + 1) n (by omega)
  rw [hd, hn] at hm
  omega

theorem decDigitsGo_mem : ∀ fuel n c, c ∈ decDigitsGo fuel n → ∃ d, d < 10 ∧ c = decDigit d := by
  intro fuel
  induction fuel with
  | zero => simp [decDigitsGo]
  | succ fuel ih =>
    intro n c hc
    by_cases h10 : n < 10
    · simp [decDigitsGo, h10] at hc
      exact ⟨n, h10, hc⟩
    · simp only [decDigitsGo, h10, if_false, List.mem_append, List.mem_singleton] at hc
      rcases hc with hc | hc
      · exact ih _ _ hc
      · exact ⟨n % 10, Nat.mod_lt n (by omega), hc⟩

theorem decDigit_ne_dash {d : Nat} (h : d < 10) : decDigit d ≠ '-' := by
  interval_cases d <;> decide

theorem natDec_no_dash (n : Nat) : '-' ∉ (natDec n).data := by
  intro hmem
  obtain ⟨d, hd, he⟩ := decDigitsGo_mem (n + 1) n _ hmem
  exact decDigit_ne_dash hd he.symm

theorem str_ext {s t : String} (h : s.data = t.data) : s = t := by
  cases s; cases t; simp_all

theorem intDec_inj {i j : Int} (h : intDec i = intDec j) : i = j := by
  have hdash : ∀ m : Nat, ("-" ++ natDec m).data = '-' :: (natDec m).data := by
    intro m
    rw [String.data_append]
    rfl
  unfold intDec at h
  by_cases hi : i < 0 <;> by_cases hj : j < 0 <;> simp only [hi, hj, if_true, if_false] at h
  · have hdata := congrArg String.data h
    rw [hdash, hdash] at hdata
    have : natDec (-i).toNat = natDec (-j).toNat := str_ext (List.cons_injective hdata)
    have := natDec_inj this
    omega
  · have hdata := congrArg String.data h
    rw [hdash] at hdata
    have : ('-' : Char) ∈ (natDec j.toNat).data := by
      rw [← hdata]; exact List.mem_cons_self _ _
    exact absurd this (natDec_no_dash _)
  · have hdata := congrArg String.data h
    rw [hdash] at hdata
    have : ('-' : Char) ∈ (natDec i.toNat).data := by
      rw [hdata]; exact List.mem_cons_self _ _
    exact absurd this (natDec_no_dash _)
  · have := natDec_inj h
    omega

/-! ### Splitting strings at separator characters -/

theorem append_sep_inj {sep : Char} :
    ∀ (a a' b b' : List Char), sep ∉ a → sep ∉ a' →
      a ++ sep :: b = a' ++ sep :: b' → a = a' ∧ b = b' := by
  intro a
  induction a with
  | nil =>
    intro a' b b' _ ha' h
    cases a' with
    | nil => simpa using h
    | cons x' t' =>
      simp only [List.nil_append, List.cons_append, List.cons.injEq] at h
      exact absurd (h.1 ▸ List.mem_cons_self x' t') ha'
  | cons x t ih =>
    intro a' b b' ha ha' h
    cases a' with
    | nil =>
      simp only [List.cons_append, List.nil_append, List.cons.injEq] at h
      exact absurd (h.1 ▸ List.mem_cons_self x t) ha
    | cons x' t' =>
      simp only [List.cons_append, List.cons.injEq] at h
      obtain ⟨hx, hrest⟩ := h
      have := ih t' b b' (fun hm => ha (List.mem_cons_of_mem x hm))
        (fun hm => ha' (List.mem_cons_of_mem x' hm)) hrest
      exact ⟨by rw [hx, this.1], this.2⟩

theorem waitingKeyRaw_data (nsp p c r : String) :
    (waitingKeyRaw nsp p c r).data =
      nsp.data ++ '/' :: (p.data ++ '-' :: (c.data ++ '-' :: r.data)) := by
  simp only [waitingKeyRaw, podKeyRaw, String.data_append]
  have h1 : ("/" : String).data = ['/'] := rfl
  have h2 : ("-" : String).data = ['-'] := rfl
  simp [h1, h2]

theorem terminatedKeyRaw_data (nsp p c : String) (e : Int) :
    (terminatedKeyRaw nsp p c e).data =
      nsp.data ++ '/' :: (p.data ++ '-' :: (c.data ++ '-' ::
        (("terminated-" : String).data ++ (intDec e).data))) := by
  simp only [terminatedKeyRaw, podKeyRaw, String.data_append]
  have h1 : ("/" : String).data = ['/'] := rfl
  have h2 : ("-terminated-" : String).data = '-' :: ("terminated-" : String).data := rfl
  simp [h1, h2]

/-! ### Substring helpers -/

theorem hasSubstr_append (a b c : String) : hasSubstr (a ++ b ++ c) b := by
  unfold hasSubstr
  rw [String.data_append, String.data_append]
  exact List.infix_append _ _ _

theorem hasSubstr_of_eq {s : String} (a b sub : String) (h : s = a ++ sub ++ b) :
    hasSubstr s sub := h ▸ hasSubstr_append a sub b

theorem not_hasSubstr_char {s sub : String} (c : Char) (hc : c ∈ sub.data)
    (hs : c ∉ s.data) : ¬ hasSubstr s sub :=
  fun h => hs (h.subset hc)

theorem mem_iff_contains (l : List String) (a : String) : a ∈ l ↔ l.contains a = true := by
  simp

/-! ### Branch behaviour of the per-container check -/

theorem waitingCheck_spec (env : LogEnv) (pod : Pod) (seen : List String)
    (cs : ContainerStatus) :
    waitingCheck env pod seen cs = (seen, []) ∨
    ∃ w, cs.state.waiting = some w ∧ isFailureReason w.reason = true ∧
      waitingKeyRaw pod.Namespace pod.Name cs.name w.reason ∉ seen ∧
      waitingCheck env pod seen cs =
        (waitingKeyRaw pod.Namespace pod.Name cs.name w.reason :: seen,
         [(waitingKeyRaw pod.Namespace pod.Name cs.name w.reason,
           gatherFailureInfo env pod cs w)]) := by
  unfold waitingCheck
  cases hw : cs.state.waiting with
  | none => exact Or.inl rfl
  | some w =>
    by_cases hf : isFailureReason w.reason = true
    · by_cases hc : waitingKeyRaw pod.Namespace pod.Name cs.name w.reason ∈ seen
      · exact Or.inl (by simp [hf, hc])
      · exact Or.inr ⟨w, rfl, hf, hc, by simp [hf, hc]⟩
    · exact Or.inl (by simp [hf])

theorem terminatedCheck_spec (env : LogEnv) (pod : Pod) (seen : List String)
    (cs : ContainerStatus) :
    terminatedCheck env pod seen cs = (seen, []) ∨
    ∃ t, cs.state.terminated = some t ∧ t.exitCode ≠ 0 ∧
      terminatedKeyRaw pod.Namespace pod.Name cs.name t.exitCode ∉ seen ∧
      terminatedCheck env pod seen cs =
        (terminatedKeyRaw pod.Namespace pod.Name cs.name t.exitCode :: seen,
         [(terminatedKeyRaw pod.Namespace pod.Name cs.name t.exitCode,
           gatherTerminationInfo env pod cs t)]) := by
  unfold terminatedCheck
  cases ht : cs.state.terminated with
  | none => exact Or.inl rfl
  | some t =>
    by_cases he : t.exitCode ≠ 0
    · by_cases hc : terminatedKeyRaw pod.Namespace pod.Name cs.name t.exitCode ∈ seen
      · exact Or.inl (by simp [he, hc])
      · exact Or.inr ⟨t, rfl, he, hc, by simp [he, hc]⟩
    · exact Or.inl (by simp [he])

theorem waitingCheck_seen_eq (env : LogEnv) (pod : Pod) (seen : List String)
    (cs : ContainerStatus) :
    (waitingCheck env pod seen cs).1 =
      (waitingCheck env pod seen cs).2.map Prod.fst ++ seen := by
  rcases waitingCheck_spec env pod seen cs with h | ⟨w, _, _, _, h⟩ <;> rw [h] <;> rfl

theorem terminatedCheck_seen_eq (env : LogEnv) (pod : Pod) (seen : List String)
    (cs : ContainerStatus) :
    (terminatedCheck env pod seen cs).1 =
      (terminatedCheck env pod seen cs).2.map Prod.fst ++ seen := by
  rcases terminatedCheck_spec env pod seen cs with h | ⟨t, _, _, _, h⟩ <;> rw [h] <;> rfl

theorem waitingCheck_fresh (env : LogEnv) (pod : Pod) (seen : List String)
    (cs : ContainerStatus) (e : Emission) (he : e ∈ (waitingCheck env pod seen cs).2) :
    e.1 ∉ seen := by
  rcases waitingCheck_spec env pod seen cs with h | ⟨w, _, _, hc, h⟩
  · rw [h] at he; simp at he
  · rw [h] at he
    simp at he
    rw [he]
    exact hc

theorem terminatedCheck_fresh (env : LogEnv) (pod : Pod) (seen : List String)
    (cs : ContainerStatus) (e : Emission) (he : e ∈ (terminatedCheck env pod seen cs).2) :
    e.1 ∉ seen := by
  rcases terminatedCheck_spec env pod seen cs with h | ⟨t, _, _, hc, h⟩
  · rw [h] at he; simp at he
  · rw [h] at he
    simp at he
    rw [he]
    exact hc

theorem waitingCheck_len (env : LogEnv) (pod : Pod) (seen : List String)
    (cs : ContainerStatus) : (waitingCheck env pod seen cs).2.length ≤ 1 := by
  rcases waitingCheck_spec env pod seen cs with h | ⟨w, _, _, _, h⟩ <;> rw [h] <;> simp

theorem terminatedCheck_len (env : LogEnv) (pod : Pod) (seen : List String)
    (cs : ContainerStatus) : (terminatedCheck env pod seen cs).2.length ≤ 1 := by
  rcases terminatedCheck_spec env pod seen cs with h | ⟨t, _, _, _, h⟩ <;> rw [h] <;> simp

/-! ### Per-container invariants -/

theorem checkContainer_seen_iff (env : LogEnv) (pod : Pod) (seen : List String)
    (cs : ContainerStatus) (k : String) :
    k ∈ (checkContainer env pod seen cs).1 ↔
      k ∈ (checkContainer env pod seen cs).2.map Prod.fst ∨ k ∈ seen := by
  unfold checkContainer
  simp only [List.map_append, List.mem_append]
  rw [terminatedCheck_seen_eq env pod ((waitingCheck env pod seen cs).1) cs,
    waitingCheck_seen_eq env pod seen cs]
  simp only [List.mem_append]
  tauto

theorem checkContainer_mono (env : LogEnv) (pod : Pod) (seen : List String)
    (cs : ContainerStatus) (k : String) (hk : k ∈ seen) :
    k ∈ (checkContainer env pod seen cs).1 :=
  (checkContainer_seen_iff env pod seen cs k).mpr (Or.inr hk)

theorem checkContainer_fresh (env : LogEnv) (pod : Pod) (seen : List String)
    (cs : ContainerStatus) (e : Emission) (he : e ∈ (checkContainer env pod seen cs).2) :
    e.1 ∉ seen := by
  unfold checkContainer at he
  simp only [List.mem_append] at he
  rcases he with he | he
  · exact waitingCheck_fresh env pod seen cs e he
  · intro hk
    have h1 : e.1 ∈ (waitingCheck env pod seen cs).1 := by
      rw [waitingCheck_seen_eq env pod seen cs]
      exact List.mem_append_right _ hk
    exact terminatedCheck_fresh env pod _ cs e he h1

theorem checkContainer_count (env : LogEnv) (pod : Pod) (seen : List String)
    (cs : ContainerStatus) (k : String) :
    ((checkContainer env pod seen cs).2.map Prod.fst).count k ≤ 1 := by
  unfold checkContainer
  simp only [List.map_append, List.count_append]
  have l1 := waitingCheck_len env pod seen cs
  have l2 := terminatedCheck_len env pod (waitingCheck env pod seen cs).1 cs
  have c1 : ((waitingCheck env pod seen cs).2.map Prod.fst).count k ≤ 1 := by
    calc ((waitingCheck env pod seen cs).2.map Prod.fst).count k
        ≤ ((waitingCheck env pod seen cs).2.map Prod.fst).length := List.count_le_length _ _
      _ ≤ 1 := by simpa using l1
  have c2 : ((terminatedCheck env pod (waitingCheck env pod seen cs).1 cs).2.map
      Prod.fst).count k ≤ 1 := by
    calc ((terminatedCheck env pod (waitingCheck env pod seen cs).1 cs).2.map
          Prod.fst).count k
        ≤ ((terminatedCheck env pod (waitingCheck env pod seen cs).1 cs).2.map
          Prod.fst).length := List.count_le_length _ _
      _ ≤ 1 := by simpa using l2
  by_cases h1 : k ∈ (waitingCheck env pod seen cs).2.map Prod.fst
  · have hz : ((terminatedCheck env pod (waitingCheck env pod seen cs).1 cs).2.map
        Prod.fst).count k = 0 := by
      rw [List.count_eq_zero]
      intro hk2
      obtain ⟨e, hee, hek⟩ := List.mem_map.mp hk2
      have hni : e.1 ∉ (waitingCheck env pod seen cs).1 :=
        terminatedCheck_fresh env pod _ cs e hee
      rw [hek, waitingCheck_seen_eq env pod seen cs] at hni
      exact hni (List.mem_append_left _ h1)
    omega
  · have hz : ((waitingCheck env pod seen cs).2.map Prod.fst).count k = 0 :=
      List.count_eq_zero.mpr h1
    omega

theorem checkContainer_complete (env : LogEnv) (pod : Pod) (seen : List String)
    (cs : ContainerStatus) (k : String) (hk : k ∈ triggerKeysContainer pod cs) :
    k ∈ (checkContainer env pod seen cs).2.map Prod.fst ∨ k ∈ seen := by
  unfold triggerKeysContainer at hk
  have hsplit := List.mem_append.mp hk
  unfold checkContainer
  simp only [List.map_append, List.mem_append]
  rcases hsplit with hk1 | hk1
  · -- the waiting-branch trigger key
    cases hw : cs.state.waiting with
    | none => simp [hw] at hk1
    | some w =>
      simp only [hw] at hk1
      by_cases hf : isFailureReason w.reason = true
      · simp [hf] at hk1
        subst hk1
        by_cases hc : waitingKeyRaw pod.Namespace pod.Name cs.name w.reason ∈ seen
        · exact Or.inr hc
        · have hfire : waitingCheck env pod seen cs =
              (waitingKeyRaw pod.Namespace pod.Name cs.name w.reason :: seen,
               [(waitingKeyRaw pod.Namespace pod.Name cs.name w.reason,
                 gatherFailureInfo env pod cs w)]) := by
            unfold waitingCheck
            rw [hw]
            simp [hf, hc]
          left; left
          rw [hfire]
          simp
      · simp [hf] at hk1
  · -- the terminated-branch trigger key
    cases ht : cs.state.terminated with
    | none => simp [ht] at hk1
    | some t =>
      simp only [ht] at hk1
      by_cases hne : t.exitCode ≠ 0
      · simp [hne] at hk1
        subst hk1
        by_cases hc : terminatedKeyRaw pod.Namespace pod.Name cs.name t.exitCode ∈
            (waitingCheck env pod seen cs).1
        · rw [waitingCheck_seen_eq env pod seen cs] at hc
          rcases List.mem_append.mp hc with hin | hin
          · exact Or.inl (Or.inl hin)
          · exact Or.inr hin
        · have hfire : terminatedCheck env pod (waitingCheck env pod seen cs).1 cs =
              (terminatedKeyRaw pod.Namespace pod.Name cs.name t.exitCode ::
                 (waitingCheck env pod seen cs).1,
               [(terminatedKeyRaw pod.Namespace pod.Name cs.name t.exitCode,
                 gatherTerminationInfo env pod cs t)]) := by
            unfold terminatedCheck
            rw [ht]
            simp [hne, hc]
          left; right
          rw [hfire]
          simp
      · simp [hne] at hk1

/-! ### Invariants of the threaded detection fold -/

theorem foldDetect_seen_iff {α : Type} (step : List String → α → List String × List Emission)
    (hseen : ∀ s x k, k ∈ (step s x).1 ↔ k ∈ (step s x).2.map Prod.fst ∨ k ∈ s) :
    ∀ (xs : List α) (s : List String) (k : String),
      k ∈ (foldDetect step s xs).1 ↔
        k ∈ (foldDetect step s xs).2.map Prod.fst ∨ k ∈ s := by
  intro xs
  induction xs with
  | nil => intro s k; simp [foldDetect]
  | cons x xs ih =>
    intro s k
    simp only [foldDetect, List.map_append, List.mem_append]
    rw [ih (step s x).1 k, hseen s x k]
    tauto

theorem foldDetect_fresh {α : Type} (step : List String → α → List String × List Emission)
    (hseen : ∀ s x k, k ∈ (step s x).1 ↔ k ∈ (step s x).2.map Prod.fst ∨ k ∈ s)
    (hfresh : ∀ s x e, e ∈ (step s x).2 → e.1 ∉ s) :
    ∀ (xs : List α) (s : List String) (e : Emission),
      e ∈ (foldDetect step s xs).2 → e.1 ∉ s := by
  intro xs
  induction xs with
  | nil => intro s e he; simp [foldDetect] at he
  | cons x xs ih =>
    intro s e he
    simp only [foldDetect, List.mem_append] at he
    rcases he with he | he
    · exact hfresh s x e he
    · intro hk
      exact ih (step s x).1 e he ((hseen s x e.1).mpr (Or.inr hk))

theorem foldDetect_count {α : Type} (step : List String → α → List String × List Emission)
    (hseen : ∀ s x k, k ∈ (step s x).1 ↔ k ∈ (step s x).2.map Prod.fst ∨ k ∈ s)
    (hfresh : ∀ s x e, e ∈ (step s x).2 → e.1 ∉ s)
    (hcount : ∀ s x k, ((step s x).2.map Prod.fst).count k ≤ 1) :
    ∀ (xs : List α) (s : List String) (k : String),
      ((foldDetect step s xs).2.map Prod.fst).count k ≤ 1 := by
  intro xs
  induction xs with
  | nil => intro s k; simp [foldDetect]
  | cons x xs ih =>
    intro s k
    simp only [foldDetect, List.map_append, List.count_append]
    by_cases hmem : k ∈ (step s x).2.map Prod.fst
    · have hz : ((foldDetect step (step s x).1 xs).2.map Prod.fst).count k = 0 := by
        rw [List.count_eq_zero]
        intro hk2
        obtain ⟨e, hee, hek⟩ := List.mem_map.mp hk2
        have hni := foldDetect_fresh step hseen hfresh xs (step s x).1 e hee
        rw [hek] at hni
        exact hni ((hseen s x k).mpr (Or.inl hmem))
      have := hcount s x k
      omega
    · have hz : ((step s x).2.map Prod.fst).count k = 0 := List.count_eq_zero.mpr hmem
      have := ih (step s x).1 k
      omega

theorem foldDetect_complete {α : Type} (step : List String → α → List String × List Emission)
    (trig : α → List String)
    (hseen : ∀ s x k, k ∈ (step s x).1 ↔ k ∈ (step s x).2.map Prod.fst ∨ k ∈ s)
    (htrig : ∀ s x k, k ∈ trig x → k ∈ (step s x).2.map Prod.fst ∨ k ∈ s) :
    ∀ (xs : List α) (s : List String) (k : String),
      k ∈ xs.flatMap trig → k ∈ (foldDetect step s xs).2.map Prod.fst ∨ k ∈ s := by
  intro xs
  induction xs with
  | nil => intro s k h; simp at h
  | cons x xs ih =>
    intro s k h
    simp only [List.flatMap_cons, List.mem_append] at h
    simp only [foldDetect, List.map_append, List.mem_append]
    rcases h with h | h
    · rcases htrig s x k h with h' | h'
      · exact Or.inl (Or.inl h')
      · exact Or.inr h'
    · rcases ih (step s x).1 k h with h' | h'
      · exact Or.inl (Or.inr h')
      · rcases (hseen s x k).mp h' with h'' | h''
        · exact Or.inl (Or.inl h'')
        · exact Or.inr h''

/-! ### Lifting the invariants through `checkPod`, `pollOnce`, `watchRun` -/

theorem checkPod_seen_iff (env : LogEnv) (s : List String) (pod : Pod) (k : String) :
    k ∈ (checkPod env s pod).1 ↔ k ∈ (checkPod env s pod).2.map Prod.fst ∨ k ∈ s :=
  foldDetect_seen_iff _ (fun s cs k => checkContainer_seen_iff env pod s cs k)
    pod.containerStatuses s k

theorem checkPod_fresh (env : LogEnv) (s : List String) (pod : Pod) (e : Emission)
    (he : e ∈ (checkPod env s pod).2) : e.1 ∉ s :=
  foldDetect_fresh _ (fun s cs k => checkContainer_seen_iff env pod s cs k)
    (fun s cs e he => checkContainer_fresh env pod s cs e he)
    pod.containerStatuses s e he

theorem checkPod_count (env : LogEnv) (s : List String) (pod : Pod) (k : String) :
    ((checkPod env s pod).2.map Prod.fst).count k ≤ 1 :=
  foldDetect_count _ (fun s cs k => checkContainer_seen_iff env pod s cs k)
    (fun s cs e he => checkContainer_fresh env pod s cs e he)
    (fun s cs k => checkContainer_count env pod s cs k)
    pod.containerStatuses s k

theorem checkPod_complete (env : LogEnv) (s : List String) (pod : Pod) (k : String)
    (hk : k ∈ triggerKeysPod pod) :
    k ∈ (checkPod env s pod).2.map Prod.fst ∨ k ∈ s :=
  foldDetect_complete _ (triggerKeysContainer pod)
    (fun s cs k => checkContainer_seen_iff env pod s cs k)
    (fun s cs k h => checkContainer_complete env pod s cs k h)
    pod.containerStatuses s k hk

theorem pollOnce_seen_iff (env : LogEnv) (s : List String) (pods : List Pod) (k : String) :
    k ∈ (pollOnce env s pods).1 ↔ k ∈ (pollOnce env s pods).2.map Prod.fst ∨ k ∈ s :=
  foldDetect_seen_iff _ (fun s pod k => checkPod_seen_iff env s pod k) pods s k

theorem pollOnce_fresh (env : LogEnv) (s : List String) (pods : List Pod) (e : Emission)
    (he : e ∈ (pollOnce env s pods).2) : e.1 ∉ s :=
  foldDetect_fresh _ (fun s pod k => checkPod_seen_iff env s pod k)
    (fun s pod e he => checkPod_fresh env s pod e he) pods s e he

theorem pollOnce_count (env : LogEnv) (s : List String) (pods : List Pod) (k : String) :
    ((pollOnce env s pods).2.map Prod.fst).count k ≤ 1 :=
  foldDetect_count _ (fun s pod k => checkPod_seen_iff env s pod k)
    (fun s pod e he => checkPod_fresh env s pod e he)
    (fun s pod k => checkPod_count env s pod k) pods s k

theorem pollOnce_complete (env : LogEnv) (s : List String) (pods : List Pod) (k : String)
    (hk : k ∈ triggerKeysPoll pods) :
    k ∈ (pollOnce env s pods).2.map Prod.fst ∨ k ∈ s :=
  foldDetect_complete _ triggerKeysPod (fun s pod k => checkPod_seen_iff env s pod k)
    (fun s pod k h => checkPod_complete env s pod k h) pods s k hk

theorem watchRun_seen_iff (env : LogEnv) (s : List String) (polls : List (List Pod))
    (k : String) :
    k ∈ (watchRun env s polls).1 ↔ k ∈ (watchRun env s polls).2.map Prod.fst ∨ k ∈ s :=
  foldDetect_seen_iff _ (fun s pods k => pollOnce_seen_iff env s pods k) polls s k

theorem watchRun_fresh (env : LogEnv) (s : List String) (polls : List (List Pod))
    (e : Emission) (he : e ∈ (watchRun env s polls).2) : e.1 ∉ s :=
  foldDetect_fresh _ (fun s pods k => pollOnce_seen_iff env s pods k)
    (fun s pods e he => pollOnce_fresh env s pods e he) polls s e he

theorem watchRun_count (env : LogEnv) (s : List String) (polls : List (List Pod))
    (k : String) : ((watchRun env s polls).2.map Prod.fst).count k ≤ 1 :=
  foldDetect_count _ (fun s pods k => pollOnce_seen_iff env s pods k)
    (fun s pods e he => pollOnce_fresh env s pods e he)
    (fun s pods k => pollOnce_count env s pods k) polls s k

theorem watchRun_complete (env : LogEnv) (s : List String) (polls : List (List Pod))
    (k : String) (hk : k ∈ triggerKeysRun polls) :
    k ∈ (watchRun env s polls).2.map Prod.fst ∨ k ∈ s :=
  foldDetect_complete _ triggerKeysPoll (fun s pods k => pollOnce_seen_iff env s pods k)
    (fun s pods k h => pollOnce_complete env s pods k h) polls s k hk

/-! ### Shape of the crash-loop explanation -/

theorem explain_clb_eq (info : FailureInfo) (h : info.Reason = "CrashLoopBackOff") :
    Explain info = explainHeader info ++
      (clbIntro ++ clbExitPart info ++ clbLogPart info ++ clbTail info) := by
  simp [Explain, explainBody, h, explainCrashLoopBackOff]

theorem clb_contains_marker (info : FailureInfo) (h : info.Reason = "CrashLoopBackOff") :
    hasSubstr (Explain info) "Your container keeps crashing and restarting.\n\n" := by
  have hbody : explainBody info = explainCrashLoopBackOff info := by simp [explainBody, h]
  apply hasSubstr_of_eq (explainHeader info ++ "❌ WHAT HAPPENED:\n")
    ("🤔 WHAT THIS MEANS:\n"
      ++ "The application inside the container starts but then immediately fails.\n"
      ++ "Kubernetes tried to restart it multiple times but it keeps crashing.\n\n"
      ++ clbExitPart info ++ clbLogPart info ++ clbTail info)
  unfold Explain
  rw [hbody]
  unfold explainCrashLoopBackOff clbIntro
  simp only [String.append_assoc]

theorem clb_contains_log (info : FailureInfo) (h : info.Reason = "CrashLoopBackOff")
    (hl : info.LastLog ≠ "") : hasSubstr (Explain info) info.LastLog := by
  have hbody : explainBody info = explainCrashLoopBackOff info := by simp [explainBody, h]
  have hlog : clbLogPart info = "📝 LAST ERROR MESSAGE:\n" ++ info.LastLog ++ "\n\n" := by
    simp [clbLogPart, hl]
  apply hasSubstr_of_eq
    (explainHeader info ++ clbIntro ++ clbExitPart info ++ "📝 LAST ERROR MESSAGE:\n")
    ("\n\n" ++ clbTail info)
  unfold Explain
  rw [hbody]
  unfold explainCrashLoopBackOff
  rw [hlog]
  simp only [String.append_assoc]

theorem clb_contains_exit_ann (info : FailureInfo) (h : info.Reason = "CrashLoopBackOff")
    (he : info.ExitCode ≠ 0) :
    hasSubstr (Explain info) (explainExitCode info.ExitCode) := by
  have hbody : explainBody info = explainCrashLoopBackOff info := by simp [explainBody, h]
  have hexitp : clbExitPart info =
      "Exit Code: " ++ intDec info.ExitCode ++ "\n"
        ++ explainExitCode info.ExitCode ++ "\n\n" := by
    simp [clbExitPart, he]
  apply hasSubstr_of_eq
    (explainHeader info ++ clbIntro ++ "Exit Code: " ++ intDec info.ExitCode ++ "\n")
    ("\n\n" ++ clbLogPart info ++ clbTail info)
  unfold Explain
  rw [hbody]
  unfold explainCrashLoopBackOff
  rw [hexitp]
  simp only [String.append_assoc]

theorem explain_oom_eq (info : FailureInfo) (h : info.Reason = "OOMKilled") :
    Explain info = explainHeader info ++ explainOOMKilled info := by
  simp [Explain, explainBody, h]

/-! ### Conditional injectivity of the dedup keys -/

theorem waitingKeyRaw_injective {ns1 p1 c1 r1 ns2 p2 c2 r2 : String}
    (hns1 : '/' ∉ ns1.data) (hns2 : '/' ∉ ns2.data)
    (hp1 : '-' ∉ p1.data) (hp2 : '-' ∉ p2.data)
    (hc1 : '-' ∉ c1.data) (hc2 : '-' ∉ c2.data)
    (h : waitingKeyRaw ns1 p1 c1 r1 = waitingKeyRaw ns2 p2 c2 r2) :
    ns1 = ns2 ∧ p1 = p2 ∧ c1 = c2 ∧ r1 = r2 := by
  have hd := congrArg String.data h
  rw [waitingKeyRaw_data, waitingKeyRaw_data] at hd
  obtain ⟨e1, hd⟩ := append_sep_inj _ _ _ _ hns1 hns2 hd
  obtain ⟨e2, hd⟩ := append_sep_inj _ _ _ _ hp1 hp2 hd
  obtain ⟨e3, hd⟩ := append_sep_inj _ _ _ _ hc1 hc2 hd
  exact ⟨str_ext e1, str_ext e2, str_ext e3, str_ext hd⟩

theorem terminatedKeyRaw_injective {ns1 p1 c1 ns2 p2 c2 : String} {x1 x2 : Int}
    (hns1 : '/' ∉ ns1.data) (hns2 : '/' ∉ ns2.data)
    (hp1 : '-' ∉ p1.data) (hp2 : '-' ∉ p2.data)
    (hc1 : '-' ∉ c1.data) (hc2 : '-' ∉ c2.data)
    (h : terminatedKeyRaw ns1 p1 c1 x1 = terminatedKeyRaw ns2 p2 c2 x2) :
    ns1 = ns2 ∧ p1 = p2 ∧ c1 = c2 ∧ x1 = x2 := by
  have hd := congrArg String.data h
  rw [terminatedKeyRaw_data, terminatedKeyRaw_data] at hd
  obtain ⟨e1, hd⟩ := append_sep_inj _ _ _ _ hns1 hns2 hd
  obtain ⟨e2, hd⟩ := append_sep_inj _ _ _ _ hp1 hp2 hd
  obtain ⟨e3, hd⟩ := append_sep_inj _ _ _ _ hc1 hc2 hd
  have hdec : (intDec x1).data = (intDec x2).data := List.append_cancel_left hd
  exact ⟨str_ext e1, str_ext e2, str_ext e3, intDec_inj (str_ext hdec)⟩

/-! ## The claims -/

set_option maxRecDepth 100000

/-- C1: over any run of the polling loop, each dedup key is rendered at
most once — zero times if it was already in the seen set, exactly once
if some observation triggers it starting from a seen set that lacks it;
every emission counted here is one invocation of `explainer.Explain`. -/
theorem detector_renders_each_key_at_most_once (env : LogEnv)
    (polls : List (List Pod)) (seen : List String) (k : String) :
    (k ∈ seen → renderCount k (watchRun env seen polls).2 = 0) ∧
    renderCount k (watchRun env seen polls).2 ≤ 1 ∧
    (k ∉ seen → k ∈ triggerKeysRun polls →
      renderCount k (watchRun env seen polls).2 = 1) := by
  refine ⟨?_, ?_, ?_⟩
  · intro hk
    unfold renderCount
    rw [List.count_eq_zero]
    intro hmem
    obtain ⟨e, he, hek⟩ := List.mem_map.mp hmem
    rw [← hek] at hk
    exact watchRun_fresh env seen polls e he hk
  · exact watchRun_count env seen polls k
  · intro hk htrig
    rcases watchRun_complete env seen polls k htrig with h | h
    · unfold renderCount
      have hne : ((watchRun env seen polls).2.map Prod.fst).count k ≠ 0 := by
        rw [Ne, List.count_eq_zero]
        intro hnm
        exact hnm h
      have hle := watchRun_count env seen polls k
      omega
    · exact absurd h hk

theorem detector_renders_each_key_at_most_once_witness :
    renderCount "prod/app-app-CrashLoopBackOff"
      (watchRun envOOM [] [[podCLB], [podCLB]]).2 = 1 :=
  (detector_renders_each_key_at_most_once envOOM [[podCLB], [podCLB]] []
    "prod/app-app-CrashLoopBackOff").2.2 (by simp) (by decide)

/-- C2 counterexample: the dedup-key construction is not injective as
claimed — two distinct (pod name, container name) pairs collide because
`-` occurs in Kubernetes names, for the waiting key and the terminated
key alike. -/
theorem dedupKey_collision_counterexample :
    (waitingKeyRaw "n" "p-a" "c" "CrashLoopBackOff" =
       waitingKeyRaw "n" "p" "a-c" "CrashLoopBackOff" ∧
     ¬ (("p-a" : String) = "p" ∧ ("c" : String) = "a-c")) ∧
    (terminatedKeyRaw "n" "p-a" "c" 5 = terminatedKeyRaw "n" "p" "a-c" 5 ∧
     ¬ (("p-a" : String) = "p" ∧ ("c" : String) = "a-c")) :=
  ⟨⟨by decide, by decide⟩, ⟨by decide, by decide⟩⟩

/-- C2 amended: the key construction is injective on tuples whose
namespace contains no `/` and whose pod and container names contain no
`-`; the reason and the exit code are recovered exactly. -/
theorem dedupKey_injective_on_separator_free_names :
    (∀ ns1 p1 c1 r1 ns2 p2 c2 r2 : String,
      '/' ∉ ns1.data → '/' ∉ ns2.data → '-' ∉ p1.data → '-' ∉ p2.data →
      '-' ∉ c1.data → '-' ∉ c2.data →
      waitingKeyRaw ns1 p1 c1 r1 = waitingKeyRaw ns2 p2 c2 r2 →
      ns1 = ns2 ∧ p1 = p2 ∧ c1 = c2 ∧ r1 = r2) ∧
    (∀ (ns1 p1 c1 ns2 p2 c2 : String) (x1 x2 : Int),
      '/' ∉ ns1.data → '/' ∉ ns2.data → '-' ∉ p1.data → '-' ∉ p2.data →
      '-' ∉ c1.data → '-' ∉ c2.data →
      terminatedKeyRaw ns1 p1 c1 x1 = terminatedKeyRaw ns2 p2 c2 x2 →
      ns1 = ns2 ∧ p1 = p2 ∧ c1 = c2 ∧ x1 = x2) :=
  ⟨fun _ _ _ _ _ _ _ _ h1 h2 h3 h4 h5 h6 h =>
      waitingKeyRaw_injective h1 h2 h3 h4 h5 h6 h,
   fun _ _ _ _ _ _ _ _ h1 h2 h3 h4 h5 h6 h =>
      terminatedKeyRaw_injective h1 h2 h3 h4 h5 h6 h⟩

theorem dedupKey_injective_on_separator_free_names_witness :
    ("prod" : String) = "prod" ∧ ("app" : String) = "app" ∧
      ("c" : String) = "c" ∧ ("CrashLoopBackOff" : String) = "CrashLoopBackOff" :=
  dedupKey_injective_on_separator_free_names.1 "prod" "app" "c" "CrashLoopBackOff"
    "prod" "app" "c" "CrashLoopBackOff" (by decide) (by decide) (by decide) (by decide)
    (by decide) (by decide) rfl

/-- C3 counterexample: a `FailureRecord` with the image-pull reason and a
non-empty log tail renders to an explanation that does not contain the
log tail — only the crash-loop template embeds `LastLog`. -/
theorem log_tail_missing_from_image_pull_template :
    infoIPB.LastLog ≠ "" ∧ ¬ hasSubstr (Explain infoIPB) infoIPB.LastLog :=
  ⟨by decide, not_hasSubstr_char '\x01' (by decide) (by decide)⟩

/-- C3 amended: the crash-loop template does include the log tail
verbatim whenever it is non-empty; the other templates do not embed it
(see the counterexample). -/
theorem crashloop_template_contains_log_tail (info : FailureInfo)
    (h : info.Reason = "CrashLoopBackOff") (hl : info.LastLog ≠ "") :
    hasSubstr (Explain info) info.LastLog :=
  clb_contains_log info h hl

theorem crashloop_template_contains_log_tail_witness :
    hasSubstr (Explain infoCLB) infoCLB.LastLog :=
  crashloop_template_contains_log_tail infoCLB rfl (by decide)

/-- C4: `explainExitCode` is the closed lookup table of the spec — each
of the ten codes maps to its fixed description, and every other code
maps to the generic "check documentation" message, which contains the
decimal rendering of the code itself. -/
theorem explainExitCode_lookup_table :
    (explainExitCode 0 = "→ Exit code 0: Success (but should not crash)"
      ∧ explainExitCode 1 = "→ Exit code 1: Application error - check your code for bugs"
      ∧ explainExitCode 2 = "→ Exit code 2: Misuse of shell command"
      ∧ explainExitCode 126 = "→ Exit code 126: Command cannot execute (permission problem?)"
      ∧ explainExitCode 127 = "→ Exit code 127: Command not found (binary doesn\x27t exist?)"
      ∧ explainExitCode 130 = "→ Exit code 130: Terminated by Ctrl+C (SIGINT)"
      ∧ explainExitCode 137 =
          "→ Exit code 137: Killed by SIGKILL (usually OOM or forced termination)"
      ∧ explainExitCode 139 = "→ Exit code 139: Segmentation fault (memory access violation)"
      ∧ explainExitCode 143 = "→ Exit code 143: Terminated by SIGTERM (graceful shutdown)"
      ∧ explainExitCode 255 = "→ Exit code 255: Exit status out of range") ∧
    ∀ code : Int, code ∉ ([0, 1, 2, 126, 127, 130, 137, 139, 143, 255] : List Int) →
      explainExitCode code =
        "→ Exit code " ++ intDec code ++ ": Check application documentation" ∧
      hasSubstr (explainExitCode code) (intDec code) := by
  constructor
  · exact ⟨by decide, by decide, by decide, by decide, by decide, by decide, by decide,
      by decide, by decide, by decide⟩
  · intro code h
    simp only [List.mem_cons, List.not_mem_nil, or_false] at h
    push_neg at h
    obtain ⟨h0, h1, h2, h126, h127, h130, h137, h139, h143, h255⟩ := h
    have heq : explainExitCode code =
        "→ Exit code " ++ intDec code ++ ": Check application documentation" := by
      simp [explainExitCode, h0, h1, h2, h126, h127, h130, h137, h139, h143, h255]
    exact ⟨heq, hasSubstr_of_eq _ _ _ heq⟩

theorem explainExitCode_lookup_table_witness :
    explainExitCode 42 = "→ Exit code " ++ intDec 42 ++ ": Check application documentation"
      ∧ hasSubstr (explainExitCode 42) (intDec 42) :=
  explainExitCode_lookup_table.2 42 (by decide)

/-- C5: a termination with empty orchestrator reason is normalized to the
default crash label `CrashLoopBackOff`, and with exit code 1 the rendered
explanation carries the generic exit-code-1 "application error"
annotation. -/
theorem empty_terminated_reason_normalized (env : LogEnv) (pod : Pod)
    (cs : ContainerStatus) (t : ContainerStateTerminated)
    (hr : t.reason = "") (he : t.exitCode = 1) :
    (gatherTerminationInfo env pod cs t).Reason = "CrashLoopBackOff" ∧
    hasSubstr (Explain (gatherTerminationInfo env pod cs t))
      "→ Exit code 1: Application error - check your code for bugs" := by
  have hreason : (gatherTerminationInfo env pod cs t).Reason = "CrashLoopBackOff" := by
    simp [gatherTerminationInfo, hr]
  have hexit : (gatherTerminationInfo env pod cs t).ExitCode = 1 := by
    simp [gatherTerminationInfo, he]
  refine ⟨hreason, ?_⟩
  have hann := clb_contains_exit_ann _ hreason (by rw [hexit]; norm_num)
  rw [hexit] at hann
  have h1 : explainExitCode 1 =
      "→ Exit code 1: Application error - check your code for bugs" := by decide
  rwa [h1] at hann

theorem empty_terminated_reason_normalized_witness :
    (gatherTerminationInfo envNone podCLB csExit1 termExit1).Reason = "CrashLoopBackOff" ∧
    hasSubstr (Explain (gatherTerminationInfo envNone podCLB csExit1 termExit1))
      "→ Exit code 1: Application error - check your code for bugs" :=
  empty_terminated_reason_normalized envNone podCLB csExit1 termExit1 rfl rfl

/-- C6: for a terminated container with exit code 0, and for a running
container, the detector takes no action — no key is built, nothing is
emitted or rendered, and the seen set is unchanged. -/
theorem exit_zero_or_running_no_action (env : LogEnv) (pod : Pod) (seen : List String)
    (cs : ContainerStatus) (hw : cs.state.waiting = none)
    (ht : cs.state.terminated = none ∨
      ∃ t, cs.state.terminated = some t ∧ t.exitCode = 0) :
    checkContainer env pod seen cs = (seen, []) := by
  rcases ht with ht | ⟨t, ht, hz⟩
  · simp [checkContainer, waitingCheck, terminatedCheck, hw, ht]
  · simp [checkContainer, waitingCheck, terminatedCheck, hw, ht, hz]

theorem exit_zero_or_running_no_action_witness :
    checkContainer envNone podCLB ["x"] csTerm0 = (["x"], []) ∧
    checkContainer envNone podCLB ["x"] csRunning = (["x"], []) :=
  ⟨exit_zero_or_running_no_action envNone podCLB ["x"] csTerm0 rfl
      (Or.inr ⟨{ exitCode := 0, reason := "Completed", message := "" }, rfl, rfl⟩),
    exit_zero_or_running_no_action envNone podCLB ["x"] csRunning rfl (Or.inl rfl)⟩

/-- C7: the waiting-reason classifier accepts exactly the fixed
six-element set, with case-sensitive matching — the lower-cased variant
is rejected. -/
theorem isFailureReason_exact_set :
    (∀ r : String, isFailureReason r = true ↔
      (r = "CrashLoopBackOff" ∨ r = "ImagePullBackOff" ∨ r = "ErrImagePull"
        ∨ r = "CreateContainerConfigError" ∨ r = "InvalidImageName"
        ∨ r = "RunContainerError")) ∧
    isFailureReason "crashloopbackoff" = false := by
  refine ⟨fun r => ?_, by decide⟩
  simp [isFailureReason]

theorem isFailureReason_exact_set_witness : isFailureReason "CrashLoopBackOff" = true :=
  (isFailureReason_exact_set.1 "CrashLoopBackOff").mpr (Or.inl rfl)

/-- C8: `getLastLog` requests exactly `tailLines = 10` lines; a failed
fetch yields the empty string, and a detected waiting failure is still
emitted with an empty `LastLog`, so a log-fetch error never suppresses
or aborts detection. -/
theorem log_fetch_error_nonfatal :
    tailLines = 10 ∧
    (∀ (env : LogEnv) (nsp pn cn : String), env.fetch nsp pn cn tailLines = none →
      getLastLog env nsp pn cn = "") ∧
    (∀ (env : LogEnv) (nsp pn cn s : String), env.fetch nsp pn cn tailLines = some s →
      getLastLog env nsp pn cn = s) ∧
    (∀ (env : LogEnv) (pod : Pod) (seen : List String) (cs : ContainerStatus)
        (w : ContainerStateWaiting),
      cs.state.waiting = some w → isFailureReason w.reason = true →
      waitingKeyRaw pod.Namespace pod.Name cs.name w.reason ∉ seen →
      env.fetch pod.Namespace pod.Name cs.name tailLines = none →
      ∃ rest, (checkContainer env pod seen cs).2 =
          (waitingKeyRaw pod.Namespace pod.Name cs.name w.reason,
            gatherFailureInfo env pod cs w) :: rest ∧
        (gatherFailureInfo env pod cs w).LastLog = "") := by
  refine ⟨rfl, ?_, ?_, ?_⟩
  · intro env nsp pn cn h
    simp [getLastLog, h]
  · intro env nsp pn cn s h
    simp [getLastLog, h]
  · intro env pod seen cs w hw hf hn hfetch
    have hfire : waitingCheck env pod seen cs =
        (waitingKeyRaw pod.Namespace pod.Name cs.name w.reason :: seen,
         [(waitingKeyRaw pod.Namespace pod.Name cs.name w.reason,
           gatherFailureInfo env pod cs w)]) := by
      unfold waitingCheck
      rw [hw]
      simp [hf, hn]
    refine ⟨(terminatedCheck env pod
        (waitingKeyRaw pod.Namespace pod.Name cs.name w.reason :: seen) cs).2, ?_, ?_⟩
    · unfold checkContainer
      rw [hfire]
      simp
    · simp [gatherFailureInfo, getLastLog, hfetch]

theorem log_fetch_error_nonfatal_witness :
    ∃ rest, (checkContainer envNone podCLB [] csCLB).2 =
        ("prod/app-app-CrashLoopBackOff",
          gatherFailureInfo envNone podCLB csCLB
            { reason := "CrashLoopBackOff", message := "" }) :: rest ∧
      (gatherFailureInfo envNone podCLB csCLB
        { reason := "CrashLoopBackOff", message := "" }).LastLog = "" :=
  log_fetch_error_nonfatal.2.2.2 envNone podCLB [] csCLB
    { reason := "CrashLoopBackOff", message := "" } rfl (by decide) (by simp) rfl

/-- C9 counterexample: in the spec's scenario (container `app` of
namespace `prod`, Waiting on `CrashLoopBackOff` after a termination with
exit code 137, log tail `"fatal: OOM"`), the record the detector emits
has exit code 0 and its rendering does not contain the SIGKILL/OOM
exit-code-137 annotation. -/
theorem waiting_crashloop_lacks_exit_annotation :
    (checkContainer envOOM podCLB [] csCLB).2 =
      [("prod/app-app-CrashLoopBackOff", infoCLB)] ∧
    infoCLB.ExitCode = 0 ∧
    ¬ hasSubstr (Explain infoCLB)
        "→ Exit code 137: Killed by SIGKILL (usually OOM or forced termination)" :=
  ⟨by decide, by decide, not_hasSubstr_char '→' (by decide) (by decide)⟩

/-- C9 amended: in that scenario the rendered output does contain the
crash-loop template and the literal log line `"fatal: OOM"`; no
exit-code annotation appears because the waiting-path record's exit code
is 0. -/
theorem waiting_crashloop_contains_template_and_log :
    (checkContainer envOOM podCLB [] csCLB).2 =
      [("prod/app-app-CrashLoopBackOff", infoCLB)] ∧
    hasSubstr (Explain infoCLB) "Your container keeps crashing and restarting.\n\n" ∧
    hasSubstr (Explain infoCLB) "fatal: OOM" :=
  ⟨by decide, clb_contains_marker infoCLB rfl, clb_contains_log infoCLB rfl (by decide)⟩

/-- C10: the classifier rejects `OOMKilled` as a waiting reason, so a
waiting `OOMKilled` container produces nothing; every emission whose
record carries reason `OOMKilled` comes from a terminated state with
non-zero exit code and orchestrator reason exactly `OOMKilled`; and such
a record is rendered with the out-of-memory template. -/
theorem oomkilled_only_from_termination :
    isFailureReason "OOMKilled" = false ∧
    (∀ (env : LogEnv) (pod : Pod) (seen : List String) (cs : ContainerStatus)
        (w : ContainerStateWaiting), cs.state.waiting = some w →
        w.reason = "OOMKilled" → cs.state.terminated = none →
        checkContainer env pod seen cs = (seen, [])) ∧
    (∀ (env : LogEnv) (pod : Pod) (seen : List String) (cs : ContainerStatus)
        (e : Emission), e ∈ (checkContainer env pod seen cs).2 →
        e.2.Reason = "OOMKilled" →
        ∃ t, cs.state.terminated = some t ∧ t.exitCode ≠ 0 ∧ t.reason = "OOMKilled") ∧
    (∀ info : FailureInfo, info.Reason = "OOMKilled" →
        Explain info = explainHeader info ++ explainOOMKilled info) := by
  refine ⟨by decide, ?_, ?_, fun info h => explain_oom_eq info h⟩
  · intro env pod seen cs w hw hr ht
    simp [checkContainer, waitingCheck, terminatedCheck, hw, ht, hr,
      (by decide : isFailureReason "OOMKilled" = false)]
  · intro env pod seen cs e he hr
    unfold checkContainer at he
    simp only [List.mem_append] at he
    rcases he with he | he
    · rcases waitingCheck_spec env pod seen cs with h | ⟨w, hw, hf, _, h⟩
      · rw [h] at he
        simp at he
      · rw [h] at he
        simp at he
        rw [he] at hr
        simp [gatherFailureInfo] at hr
        rw [hr] at hf
        exact absurd hf (by decide)
    · rcases terminatedCheck_spec env pod (waitingCheck env pod seen cs).1 cs with
        h | ⟨t, ht, hne, _, h⟩
      · rw [h] at he
        simp at he
      · rw [h] at he
        simp at he
        rw [he] at hr
        simp only [gatherTerminationInfo] at hr
        by_cases hre : t.reason = ""
        · rw [if_pos hre] at hr
          exact absurd hr (by decide)
        · rw [if_neg hre] at hr
          exact ⟨t, ht, hne, hr⟩

theorem oomkilled_only_from_termination_witness :
    checkContainer envNone podCLB [] csOOMWait = ([], []) ∧
    ∃ t, csOOMTerm.state.terminated = some t ∧ t.exitCode ≠ 0 ∧
      t.reason = "OOMKilled" :=
  ⟨oomkilled_only_from_termination.2.1 envNone podCLB [] csOOMWait
      { reason := "OOMKilled", message := "" } rfl rfl rfl,
    oomkilled_only_from_termination.2.2.1 envNone podCLB [] csOOMTerm
      ("prod/app-c-terminated-137",
        gatherTerminationInfo envNone podCLB csOOMTerm
          { exitCode := 137, reason := "OOMKilled", message := "" })
      (by decide) (by decide)⟩

end PodDetective
